import Mathlib

/-
Verification development for the TenX cluster aligner orchestration core
(TenXClusterAligner.cpp).  The cluster orchestrator drives every read pair
of one barcode through three resumable stages: paired seed search (stage 1),
paired scoring with secondary-alignment enumeration (stage 2), and a
single-end fallback for candidate chimeras (stage 3).

The external per-pair search engine (align_phase_1 .. align_phase_4 of the
per-pair aligner) and the shared single-end fallback engine (AlignRead of
the shared BaseAligner) are out of scope of the core; they are modelled as
a per-pair oracle (AlignerOracle) that fixes the responses the engine gives
for that pair, following the interface contract: the phase-3 call reports
overflow exactly when more candidate secondary pairs exist than fit in the
caller-provided buffer, and AlignRead reports fits-in-buffer exactly when
the number of single-end secondary results of the mate fits the capacity it
was handed.  Engine-bound parameters that the core merely forwards
(maxEditDistanceForSecondaryResults, maxSecondaryAlignmentsToReturn) are
absorbed by the oracle and do not appear in the model.

Every call the core makes into an engine is recorded in an EngineCall log,
so that claims about which engine is invoked for which pair, and how often,
are directly statable.
-/

namespace TenX

/-- Alignment status of one mate (AlignmentResult in the source; the core
only ever distinguishes NotFound from the rest). -/
inductive AlignmentRes where
  | NotFound
  | SingleHit
  | MultipleHits
deriving DecidableEq, Repr

/-- Strand of an alignment (directions.h). -/
inductive Direction where
  | FORWARD
  | RC
deriving DecidableEq, Repr

/-- PairedAlignmentResult: the per-mate arrays status[2], location[2], ... of
the source are unrolled into one field per mate. -/
structure PairedAlignmentResult where
  status0 : AlignmentRes
  status1 : AlignmentRes
  location0 : Nat
  location1 : Nat
  direction0 : Direction
  direction1 : Direction
  mapq0 : Nat
  mapq1 : Nat
  score0 : Nat
  score1 : Nat
  scorePriorToClipping0 : Nat
  scorePriorToClipping1 : Nat
  alignedAsPair : Bool
  fromAlignTogether : Bool
  nanosInAlignTogether : Int
  nLVCalls : Nat
  nSmallHits : Nat
deriving DecidableEq, Repr

/-- SingleAlignmentResult produced by the single-end fallback engine. -/
structure SingleAlignmentResult where
  status : AlignmentRes
  mapq : Nat
  direction : Direction
  location : Nat
  score : Nat
  scorePriorToClipping : Nat
deriving DecidableEq, Repr

/-- Oracle fixing the responses of the external engines for one pair:
phase1Stops is the return value of align_phase_1 (true means the paired
search stopped), phase2InitOk the return value of align_phase_2_init,
phase2Loci the cursor read back through align_phase_2_get_loci,
nCandidateSecondary the number of candidate secondary pairs that
align_phase_3 wants to emit (overflow iff it exceeds the buffer capacity),
phase4Result and phase4NSecondary the primary result and secondary count
after align_phase_4, singleCand0/1 the number of single-end secondary
results AlignRead wants to emit for each mate (fits iff at most the handed
capacity), and singleRes0/1 the primary single-end result per mate. -/
structure AlignerOracle where
  phase1Stops : Bool
  phase2InitOk : Bool
  phase2Loci : Nat
  nCandidateSecondary : Int
  phase4Result : PairedAlignmentResult
  phase4NSecondary : Int
  singleCand0 : Int
  singleCand1 : Int
  singleRes0 : SingleAlignmentResult
  singleRes1 : SingleAlignmentResult
deriving DecidableEq, Repr

/-- TenXProgressTracker: the per-pair mutable state the orchestrator owns.
The two reads are represented by their data lengths (the only property the
core reads); result0 is the primary result slot result[0]; the secondary
slots result[1..] are engine-written buffer contents, outside the model.
The _int64 counters and buffer sizes of the source are Int. -/
structure TenXProgressTracker where
  pairNotDone : Bool
  singleNotDone : Bool
  dataLength0 : Nat
  dataLength1 : Nat
  result0 : PairedAlignmentResult
  nextLoci : Nat
  next : Option Nat
  popularSeedsSkipped : Nat
  nSecondaryResults : Int
  secondaryResultBufferSize : Int
  nSingleEndSecondaryResultsForFirstRead : Int
  nSingleEndSecondaryResultsForSecondRead : Int
  singleSecondaryBufferSize : Int
  aligner : AlignerOracle
deriving DecidableEq, Repr

/-- Configuration the constructor stores: forceSpacing and minReadLength. -/
structure Config where
  forceSpacing : Bool
  minReadLength : Nat
deriving DecidableEq, Repr

/-- One call the core makes into an external engine, tagged with the pair
index it is made for (and, where relevant, the capacity and buffer offset
handed to the engine). -/
inductive EngineCall where
  | alignPhase1 (pairIdx : Nat)
  | alignPhase2Init (pairIdx : Nat)
  | alignPhase2GetLoci (pairIdx : Nat)
  | alignPhase2ToTargetLoc (pairIdx : Nat) (target : Nat)
  | alignPhase3 (pairIdx : Nat) (capacity : Int)
  | alignPhase4 (pairIdx : Nat)
  | alignRead (pairIdx : Nat) (mate : Nat) (capacity : Int) (offset : Int)
deriving DecidableEq, Repr

/-- The pair index an engine call is made for. -/
def callPairIdx : EngineCall → Nat
  | .alignPhase1 i => i
  | .alignPhase2Init i => i
  | .alignPhase2GetLoci i => i
  | .alignPhase2ToTargetLoc i _ => i
  | .alignPhase3 i _ => i
  | .alignPhase4 i => i
  | .alignRead i _ _ _ => i

/-- True for the stage-2 paired-scoring calls (align_phase_3 / align_phase_4). -/
def isScoringCall : EngineCall → Bool
  | .alignPhase3 _ _ => true
  | .alignPhase4 _ => true
  | _ => false

/-- True for calls into the single-end fallback engine (AlignRead). -/
def isSingleEngineCall : EngineCall → Bool
  | .alignRead _ _ _ _ => true
  | _ => false

/-- The too-short finalization of the primary result (source lines 116-126):
zero location, mapq and score, NotFound status for both mates, and the
pair-level flags and diagnostic counters cleared. -/
def shortFinalize (r : PairedAlignmentResult) : PairedAlignmentResult :=
  { r with
    status0 := .NotFound, status1 := .NotFound,
    location0 := 0, location1 := 0,
    mapq0 := 0, mapq1 := 0,
    score0 := 0, score1 := 0,
    alignedAsPair := false,
    fromAlignTogether := false,
    nanosInAlignTogether := 0,
    nLVCalls := 0,
    nSmallHits := 0 }

/-- The body of the first loop of align_first_stage for one tracker
(source lines 107-149).  Returns the updated tracker, the contribution of
this pair to barcodeFinished (false exactly when the source executes
line 134), and the engine calls made, as a function of the pair index. -/
def align_first_stage_step (cfg : Config) (t : TenXProgressTracker) :
    TenXProgressTracker × Bool × (Nat → List EngineCall) :=
  if t.pairNotDone then
    let t1 := { t with result0 := { t.result0 with status0 := .NotFound, status1 := .NotFound } }
    if t1.dataLength0 < cfg.minReadLength ∧ t1.dataLength1 < cfg.minReadLength then
      ({ t1 with
          result0 := shortFinalize t1.result0,
          pairNotDone := false,
          singleNotDone := false },
        true, fun _ => [])
    else
      if cfg.minReadLength ≤ t1.dataLength0 ∧ cfg.minReadLength ≤ t1.dataLength1 then
        if ! t1.aligner.phase1Stops then
          ({ t1 with
              pairNotDone := t1.aligner.phase2InitOk,
              nextLoci := t1.aligner.phase2Loci,
              next := none },
            false,
            fun i => [.alignPhase1 i, .alignPhase2Init i, .alignPhase2GetLoci i])
        else
          ({ t1 with pairNotDone := false }, false, fun i => [.alignPhase1 i])
      else
        (t1, false, fun _ => [])
  else
    (t, true, fun _ => [])

/-- A sweep over the tracker array: applies a per-tracker step to every
tracker in index order, conjoining the barcodeFinished contributions and
concatenating the engine-call logs (the Nat argument is the index of the
first tracker of the list). -/
def sweep (step : TenXProgressTracker → TenXProgressTracker × Bool × (Nat → List EngineCall)) :
    Nat → List TenXProgressTracker → Bool × List TenXProgressTracker × List EngineCall
  | _, [] => (true, [], [])
  | i, t :: ts =>
    let s := step t
    let rest := sweep step (i + 1) ts
    (s.2.1 && rest.1, s.1 :: rest.2.1, s.2.2 i ++ rest.2.2)

/-- The cluster-wide target location of the bias loop (source line 155:
a placeholder constant coordinate, the same for every pair). -/
def clusterTargetLoc : Nat := 0

/-- The second loop of align_first_stage (source lines 157-164): every pair
still in progress is advanced toward clusterTargetLoc. -/
def biasSweep : Nat → List TenXProgressTracker → List EngineCall
  | _, [] => []
  | i, t :: ts =>
    (if t.pairNotDone then [EngineCall.alignPhase2ToTargetLoc i clusterTargetLoc] else [])
      ++ biasSweep (i + 1) ts

/-- align_first_stage (source lines 101-179): the search sweep followed by
the cluster-location bias loop over the updated trackers.  Returns
(barcodeFinished, trackers, engine-call log). -/
def align_first_stage (cfg : Config) (ts : List TenXProgressTracker) :
    Bool × List TenXProgressTracker × List EngineCall :=
  let s := sweep (align_first_stage_step cfg) 0 ts
  (s.1, s.2.1, s.2.2 ++ biasSweep 0 s.2.1)

/-- The body of the loop of align_second_stage for one tracker (source
lines 190-248). -/
def align_second_stage_step (cfg : Config) (t : TenXProgressTracker) :
    TenXProgressTracker × Bool × (Nat → List EngineCall) :=
  if t.pairNotDone then
    let t1 := { t with
      nSingleEndSecondaryResultsForFirstRead := 0,
      nSingleEndSecondaryResultsForSecondRead := 0 }
    let secondaryBufferOverflow := t1.secondaryResultBufferSize < t1.aligner.nCandidateSecondary
    if secondaryBufferOverflow then
      ({ t1 with
          nSingleEndSecondaryResultsForFirstRead := 0,
          nSingleEndSecondaryResultsForSecondRead := 0,
          nSecondaryResults := t1.secondaryResultBufferSize + 1 },
        false,
        fun i => [.alignPhase3 i t1.secondaryResultBufferSize])
    else
      let t2 := { t1 with nSecondaryResults := t1.aligner.nCandidateSecondary }
      let t3 := { t2 with
        result0 := { t2.aligner.phase4Result with
          nanosInAlignTogether := 0,
          fromAlignTogether := true,
          alignedAsPair := true },
        nSecondaryResults := t2.aligner.phase4NSecondary }
      let calls := fun i => [EngineCall.alignPhase3 i t1.secondaryResultBufferSize,
                             EngineCall.alignPhase4 i]
      if cfg.forceSpacing then
        let t4 :=
          if t3.result0.status0 = .NotFound then
            { t3 with result0 := { t3.result0 with fromAlignTogether := false } }
          else t3
        ({ t4 with pairNotDone := false, singleNotDone := false }, true, calls)
      else
        if t3.result0.status0 ≠ .NotFound ∧ t3.result0.status1 ≠ .NotFound then
          ({ t3 with pairNotDone := false, singleNotDone := false }, true, calls)
        else
          ({ t3 with pairNotDone := false }, true, calls)
  else
    (t, true, fun _ => [])

/-- align_second_stage (source lines 182-251). -/
def align_second_stage (cfg : Config) (ts : List TenXProgressTracker) :
    Bool × List TenXProgressTracker × List EngineCall :=
  sweep (align_second_stage_step cfg) 0 ts

/-- The data length of mate r of a tracker (read[r] of source line 266). -/
def mateLen (t : TenXProgressTracker) (r : Nat) : Nat :=
  if r = 0 then t.dataLength0 else t.dataLength1

/-- The single-end secondary-result count the fallback engine wants to emit
for mate r. -/
def singleCand (o : AlignerOracle) (r : Nat) : Int :=
  if r = 0 then o.singleCand0 else o.singleCand1

/-- The primary single-end result of the fallback engine for mate r. -/
def singleRes (o : AlignerOracle) (r : Nat) : SingleAlignmentResult :=
  if r = 0 then o.singleRes0 else o.singleRes1

/-- The too-short per-mate write of stage 3 (source lines 274-280). -/
def writeShortMate (res : PairedAlignmentResult) (r : Nat) : PairedAlignmentResult :=
  if r = 0 then
    { res with status0 := .NotFound, mapq0 := 0, direction0 := .FORWARD,
               location0 := 0, score0 := 0 }
  else
    { res with status1 := .NotFound, mapq1 := 0, direction1 := .FORWARD,
               location1 := 0, score1 := 0 }

/-- The per-mate primary-result write of stage 3 after a successful
AlignRead (source lines 299-304), with the chimeric mapq penalty mapq / 3. -/
def writeSingleMate (res : PairedAlignmentResult) (r : Nat) (s : SingleAlignmentResult) :
    PairedAlignmentResult :=
  if r = 0 then
    { res with status0 := s.status, mapq0 := s.mapq / 3, direction0 := s.direction,
               location0 := s.location, score0 := s.score,
               scorePriorToClipping0 := s.scorePriorToClipping }
  else
    { res with status1 := s.status, mapq1 := s.mapq / 3, direction1 := s.direction,
               location1 := s.location, score1 := s.score,
               scorePriorToClipping1 := s.scorePriorToClipping }

/-- One iteration (mate r) of the inner loop of align_third_stage (source
lines 270-306).  The Bool is true when the single-end secondary buffer
overflowed, which breaks the mate loop.  As in the source (line 267), both
entries of resultCount alias nSingleEndSecondaryResultsForFirstRead, so the
success path writes the count of either mate to that one field, and the
capacity and buffer offset handed to AlignRead are computed from it. -/
def align_third_stage_mate (cfg : Config) (t : TenXProgressTracker) (r : Nat) :
    TenXProgressTracker × Bool × (Nat → List EngineCall) :=
  if mateLen t r < cfg.minReadLength then
    ({ t with result0 := writeShortMate t.result0 r }, false, fun _ => [])
  else
    let capacity := t.singleSecondaryBufferSize - t.nSingleEndSecondaryResultsForFirstRead
    let offset := t.nSingleEndSecondaryResultsForFirstRead
    let fitInSecondaryBuffer := singleCand t.aligner r ≤ capacity
    let calls := fun i => [EngineCall.alignRead i r capacity offset]
    if ¬ fitInSecondaryBuffer then
      ({ t with
          nSecondaryResults := 0,
          nSingleEndSecondaryResultsForFirstRead := t.singleSecondaryBufferSize + 1,
          nSingleEndSecondaryResultsForSecondRead := 0 },
        true, calls)
    else
      let t1 := { t with nSingleEndSecondaryResultsForFirstRead := singleCand t.aligner r }
      ({ t1 with result0 := writeSingleMate t1.result0 r (singleRes t1.aligner r) },
        false, calls)

/-- The body of the loop of align_third_stage for one tracker (source lines
262-322): mate 0 then mate 1, breaking on overflow; when neither mate
overflowed the pair is finalized as not aligned as a pair. -/
def align_third_stage_step (cfg : Config) (t : TenXProgressTracker) :
    TenXProgressTracker × Bool × (Nat → List EngineCall) :=
  if t.singleNotDone then
    let m0 := align_third_stage_mate cfg t 0
    if m0.2.1 then
      (m0.1, false, m0.2.2)
    else
      let m1 := align_third_stage_mate cfg m0.1 1
      if m1.2.1 then
        (m1.1, false, fun i => m0.2.2 i ++ m1.2.2 i)
      else
        ({ m1.1 with
            singleNotDone := false,
            result0 := { m1.1.result0 with fromAlignTogether := false, alignedAsPair := false } },
          true, fun i => m0.2.2 i ++ m1.2.2 i)
  else
    (t, true, fun _ => [])

/-- align_third_stage (source lines 254-325). -/
def align_third_stage (cfg : Config) (ts : List TenXProgressTracker) :
    Bool × List TenXProgressTracker × List EngineCall :=
  sweep (align_third_stage_step cfg) 0 ts

/-- The top-level entry point align (source lines 329-350): stage 1, early
exit when it reports the barcode finished; stage 2, early exit when it
reports not finished; otherwise stage 3, whose completion flag is returned. -/
def align (cfg : Config) (ts : List TenXProgressTracker) :
    Bool × List TenXProgressTracker × List EngineCall :=
  let s1 := align_first_stage cfg ts
  if s1.1 then
    (true, s1.2.1, s1.2.2)
  else
    let s2 := align_second_stage cfg s1.2.1
    if ! s2.1 then
      (false, s2.2.1, s1.2.2 ++ s2.2.2)
    else
      let s3 := align_third_stage cfg s2.2.1
      (s3.1, s3.2.1, s1.2.2 ++ s2.2.2 ++ s3.2.2)

/-- Number of align_phase_1 invocations recorded for pair i. -/
def countPhase1 (l : List EngineCall) (i : Nat) : Nat :=
  (l.filter fun c => c = EngineCall.alignPhase1 i).length

/-- Forward-only evolution of the two stage flags of one tracker: a flag
that is set in the later state was already set in the earlier state, so a
cleared flag stays cleared. -/
def flagLe (t t' : TenXProgressTracker) : Prop :=
  (t'.pairNotDone = true → t.pairNotDone = true) ∧
  (t'.singleNotDone = true → t.singleNotDone = true)

/-- The tracker fields an overflow leaves untouched: everything except the
three secondary-result counts and the primary result slot. -/
def overflowFrame (t t' : TenXProgressTracker) : Prop :=
  t'.pairNotDone = t.pairNotDone ∧
  t'.singleNotDone = t.singleNotDone ∧
  t'.dataLength0 = t.dataLength0 ∧
  t'.dataLength1 = t.dataLength1 ∧
  t'.nextLoci = t.nextLoci ∧
  t'.next = t.next ∧
  t'.popularSeedsSkipped = t.popularSeedsSkipped ∧
  t'.secondaryResultBufferSize = t.secondaryResultBufferSize ∧
  t'.singleSecondaryBufferSize = t.singleSecondaryBufferSize ∧
  t'.aligner = t.aligner

/-- A default primary-result slot: everything zeroed, both mates NotFound. -/
def sampleResult : PairedAlignmentResult :=
  { status0 := .NotFound, status1 := .NotFound, location0 := 0, location1 := 0,
    direction0 := .FORWARD, direction1 := .FORWARD, mapq0 := 0, mapq1 := 0,
    score0 := 0, score1 := 0, scorePriorToClipping0 := 0, scorePriorToClipping1 := 0,
    alignedAsPair := false, fromAlignTogether := false, nanosInAlignTogether := 0,
    nLVCalls := 0, nSmallHits := 0 }

/-- A paired result with both mates found, as align_phase_4 may produce. -/
def foundResult : PairedAlignmentResult :=
  { sampleResult with status0 := .SingleHit, status1 := .SingleHit,
                      location0 := 500, location1 := 700 }

/-- A found single-end result with mapq 60. -/
def sampleSingle : SingleAlignmentResult :=
  { status := .SingleHit, mapq := 60, direction := .FORWARD, location := 100, score := 5,
    scorePriorToClipping := 5 }

/-- Engine responses for a pair whose paired search proceeds normally and
yields five candidate secondary pairs at scoring. -/
def oracleA : AlignerOracle :=
  { phase1Stops := false, phase2InitOk := true, phase2Loci := 42,
    nCandidateSecondary := 5, phase4Result := foundResult, phase4NSecondary := 5,
    singleCand0 := 0, singleCand1 := 0, singleRes0 := sampleSingle, singleRes1 := sampleSingle }

/-- An unstarted tracker bound to oracleA whose paired secondary buffer
holds only two results. -/
def trackerA : TenXProgressTracker :=
  { pairNotDone := true, singleNotDone := true, dataLength0 := 100, dataLength1 := 100,
    result0 := sampleResult, nextLoci := 0, next := none, popularSeedsSkipped := 0,
    nSecondaryResults := 0, secondaryResultBufferSize := 2,
    nSingleEndSecondaryResultsForFirstRead := 0, nSingleEndSecondaryResultsForSecondRead := 0,
    singleSecondaryBufferSize := 4, aligner := oracleA }

/-- The default configuration: no forced spacing, minimum read length 30. -/
def cfgA : Config := { forceSpacing := false, minReadLength := 30 }

/-- The caller reaction to a stage-2 overflow report: grow the paired
secondary buffer of every tracker, changing nothing else. -/
def retryStateA : List TenXProgressTracker :=
  (align cfgA [trackerA]).2.1.map fun t => { t with secondaryResultBufferSize := 6 }

/-- Engine responses whose single-end fallback yields one secondary result
for mate 0 and two for mate 1. -/
def oracleB : AlignerOracle := { oracleA with singleCand0 := 1, singleCand1 := 2 }

/-- A tracker sitting in the single-end fallback stage with a roomy
single-end secondary buffer. -/
def trackerB : TenXProgressTracker :=
  { trackerA with pairNotDone := false, singleNotDone := true,
                  singleSecondaryBufferSize := 10, aligner := oracleB }

/-- Engine responses whose single-end fallback wants five secondary
results for mate 0. -/
def oracleC : AlignerOracle := { oracleA with singleCand0 := 5 }

/-- A tracker in the fallback stage carrying four paired secondary results
from stage 2, with a single-end secondary buffer of capacity two. -/
def trackerC : TenXProgressTracker :=
  { trackerA with pairNotDone := false, singleNotDone := true, nSecondaryResults := 4,
                  singleSecondaryBufferSize := 2, aligner := oracleC }

/-- Engine responses whose paired search stops in phase 1. -/
def oracleStop : AlignerOracle := { oracleA with phase1Stops := true }

/-- An unstarted tracker whose paired search will stop in phase 1. -/
def trackerStop : TenXProgressTracker := { trackerA with aligner := oracleStop }

/-- Configuration with forced mate-spacing enabled. -/
def cfgFS : Config := { forceSpacing := true, minReadLength := 30 }

/-- An unstarted tracker whose two reads are empty (length 0). -/
def trackerShort : TenXProgressTracker :=
  { trackerA with dataLength0 := 0, dataLength1 := 0 }

theorem sweep_trackers
    (step : TenXProgressTracker → TenXProgressTracker × Bool × (Nat → List EngineCall))
    (i : Nat) (ts : List TenXProgressTracker) :
    (sweep step i ts).2.1 = ts.map fun t => (step t).1 := by
  induction ts generalizing i with
  | nil => rfl
  | cons t ts ih => simp [sweep, ih]

theorem sweep_fin
    (step : TenXProgressTracker → TenXProgressTracker × Bool × (Nat → List EngineCall))
    (i : Nat) (ts : List TenXProgressTracker) :
    (sweep step i ts).1 = ts.all fun t => (step t).2.1 := by
  induction ts generalizing i with
  | nil => rfl
  | cons t ts ih => simp [sweep, ih]

theorem sweep_log_mem
    (step : TenXProgressTracker → TenXProgressTracker × Bool × (Nat → List EngineCall))
    (c : EngineCall) (i : Nat) (ts : List TenXProgressTracker) :
    c ∈ (sweep step i ts).2.2 ↔ ∃ j t, ts[j]? = some t ∧ c ∈ (step t).2.2 (i + j) := by
  induction ts generalizing i with
  | nil => simp [sweep]
  | cons t ts ih =>
    simp only [sweep, List.mem_append, ih]
    constructor
    · rintro (h | ⟨j, u, hj, hc⟩)
      · exact ⟨0, t, by simp, by simpa using h⟩
      · refine ⟨j + 1, u, by simpa using hj, ?_⟩
        have e : i + (j + 1) = (i + 1) + j := by omega
        rw [e]; exact hc
    · rintro ⟨j, u, hj, hc⟩
      cases j with
      | zero =>
        simp only [List.getElem?_cons_zero, Option.some.injEq] at hj
        subst hj
        exact Or.inl (by simpa using hc)
      | succ j =>
        refine Or.inr ⟨j, u, by simpa using hj, ?_⟩
        have e : (i + 1) + j = i + (j + 1) := by omega
        rw [e]; exact hc

theorem third_mate_flags (cfg : Config) (t : TenXProgressTracker) (r : Nat) :
    (align_third_stage_mate cfg t r).1.pairNotDone = t.pairNotDone ∧
    (align_third_stage_mate cfg t r).1.singleNotDone = t.singleNotDone := by
  unfold align_third_stage_mate
  dsimp only
  split
  · simp
  · split <;> simp

theorem first_step_flagLe (cfg : Config) (t : TenXProgressTracker) :
    flagLe t (align_first_stage_step cfg t).1 := by
  unfold align_first_stage_step flagLe
  dsimp only
  split
  · split
    · simp
    · split
      · split <;> simp_all
      · simp_all
  · simp

theorem second_step_flagLe (cfg : Config) (t : TenXProgressTracker) :
    flagLe t (align_second_stage_step cfg t).1 := by
  unfold align_second_stage_step flagLe
  dsimp only
  split
  · split
    · simp_all
    · split
      · simp_all
      · split <;> simp_all
  · simp

theorem third_step_flagLe (cfg : Config) (t : TenXProgressTracker) :
    flagLe t (align_third_stage_step cfg t).1 := by
  unfold align_third_stage_step flagLe
  dsimp only
  have h0 := third_mate_flags cfg t 0
  have h1 := third_mate_flags cfg (align_third_stage_mate cfg t 0).1 1
  split
  · split
    · exact ⟨fun hp => by rw [← h0.1]; exact hp, fun hs => by rw [← h0.2]; exact hs⟩
    · split
      · exact ⟨fun hp => by rw [← h0.1, ← h1.1]; exact hp,
               fun hs => by rw [← h0.2, ← h1.2]; exact hs⟩
      · refine ⟨fun hp => ?_, fun hs => by simp_all⟩
        have hq : (align_third_stage_mate cfg (align_third_stage_mate cfg t 0).1 1).1.pairNotDone
            = true := by simpa using hp
        rw [h1.1, h0.1] at hq
        exact hq
  · simp

theorem second_step_skip (cfg : Config) (t : TenXProgressTracker)
    (h : t.pairNotDone = false) :
    align_second_stage_step cfg t = (t, true, fun _ => []) := by
  unfold align_second_stage_step
  simp [h]

theorem third_step_skip (cfg : Config) (t : TenXProgressTracker)
    (h : t.singleNotDone = false) :
    align_third_stage_step cfg t = (t, true, fun _ => []) := by
  unfold align_third_stage_step
  simp [h]

theorem first_step_short (cfg : Config) (t : TenXProgressTracker)
    (hp : t.pairNotDone = true)
    (h0 : t.dataLength0 < cfg.minReadLength) (h1 : t.dataLength1 < cfg.minReadLength) :
    align_first_stage_step cfg t =
      ({ t with result0 := shortFinalize t.result0,
                pairNotDone := false, singleNotDone := false },
        true, fun _ => []) := by
  unfold align_first_stage_step
  simp [hp, h0, h1, shortFinalize]

theorem second_step_overflow (cfg : Config) (t : TenXProgressTracker)
    (hp : t.pairNotDone = true)
    (hov : t.secondaryResultBufferSize < t.aligner.nCandidateSecondary) :
    align_second_stage_step cfg t =
      ({ t with nSingleEndSecondaryResultsForFirstRead := 0,
                nSingleEndSecondaryResultsForSecondRead := 0,
                nSecondaryResults := t.secondaryResultBufferSize + 1 },
        false, fun i => [EngineCall.alignPhase3 i t.secondaryResultBufferSize]) := by
  unfold align_second_stage_step
  simp [hp, hov]

theorem first_step_fin_iff (cfg : Config) (t : TenXProgressTracker) :
    (align_first_stage_step cfg t).2.1 = true ↔
      (t.pairNotDone = false ∨
        (t.dataLength0 < cfg.minReadLength ∧ t.dataLength1 < cfg.minReadLength)) := by
  unfold align_first_stage_step
  dsimp only
  split
  · split
    · simp_all
    · split
      · split <;> simp_all
      · simp_all
  · simp_all

theorem first_step_calls_idx (cfg : Config) (t : TenXProgressTracker) (j : Nat) (c : EngineCall)
    (h : c ∈ (align_first_stage_step cfg t).2.2 j) : callPairIdx c = j := by
  unfold align_first_stage_step at h
  dsimp only at h
  split at h
  · split at h
    · simp at h
    · split at h
      · split at h
        · simp at h
          rcases h with rfl | rfl | rfl <;> rfl
        · simp at h
          subst h
          rfl
      · simp at h
  · simp at h

theorem first_step_calls_no_advance (cfg : Config) (t : TenXProgressTracker)
    (j i tgt : Nat) :
    EngineCall.alignPhase2ToTargetLoc i tgt ∉ (align_first_stage_step cfg t).2.2 j := by
  intro h
  unfold align_first_stage_step at h
  dsimp only at h
  split at h
  · split at h
    · simp at h
    · split at h
      · split at h
        · simp at h
        · simp at h
      · simp at h
  · simp at h

theorem second_step_calls_idx (cfg : Config) (t : TenXProgressTracker) (j : Nat) (c : EngineCall)
    (h : c ∈ (align_second_stage_step cfg t).2.2 j) : callPairIdx c = j := by
  unfold align_second_stage_step at h
  dsimp only at h
  split at h
  · split at h
    · simp at h
      subst h
      rfl
    · split at h
      · simp at h
        rcases h with rfl | rfl <;> rfl
      · split at h
        · simp at h
          rcases h with rfl | rfl <;> rfl
        · simp at h
          rcases h with rfl | rfl <;> rfl
  · simp at h

theorem third_mate_calls_idx (cfg : Config) (t : TenXProgressTracker) (r j : Nat) (c : EngineCall)
    (h : c ∈ (align_third_stage_mate cfg t r).2.2 j) : callPairIdx c = j := by
  unfold align_third_stage_mate at h
  dsimp only at h
  split at h
  · simp at h
  · split at h
    · simp at h
      subst h
      rfl
    · simp at h
      subst h
      rfl

theorem third_step_calls_idx (cfg : Config) (t : TenXProgressTracker) (j : Nat) (c : EngineCall)
    (h : c ∈ (align_third_stage_step cfg t).2.2 j) : callPairIdx c = j := by
  unfold align_third_stage_step at h
  dsimp only at h
  split at h
  · split at h
    · exact third_mate_calls_idx cfg t 0 j c h
    · split at h <;>
      · rcases List.mem_append.1 h with h' | h'
        · exact third_mate_calls_idx cfg t 0 j c h'
        · exact third_mate_calls_idx cfg (align_third_stage_mate cfg t 0).1 1 j c h'
  · simp at h

theorem biasSweep_mem (i tgt : Nat) :
    ∀ (i0 : Nat) (ts : List TenXProgressTracker),
      EngineCall.alignPhase2ToTargetLoc i tgt ∈ biasSweep i0 ts ↔
        ∃ j t, ts[j]? = some t ∧ i = i0 + j ∧ t.pairNotDone = true ∧ tgt = clusterTargetLoc := by
  intro i0 ts
  induction ts generalizing i0 with
  | nil => simp [biasSweep]
  | cons t ts ih =>
    simp only [biasSweep, List.mem_append, ih]
    constructor
    · rintro (h | ⟨j, u, hj, hij, hu, htgt⟩)
      · split at h
        next hpair =>
          simp only [List.mem_singleton, EngineCall.alignPhase2ToTargetLoc.injEq] at h
          obtain ⟨h1, h2⟩ := h
          exact ⟨0, t, by simp, by omega, hpair, h2⟩
        next => simp at h
      · exact ⟨j + 1, u, by simpa using hj, by omega, hu, htgt⟩
    · rintro ⟨j, u, hj, hij, hu, htgt⟩
      cases j with
      | zero =>
        simp only [List.getElem?_cons_zero, Option.some.injEq] at hj
        subst hj
        exact Or.inl (by simp [hu, hij, htgt])
      | succ j =>
        exact Or.inr ⟨j, u, by simpa using hj, by omega, hu, htgt⟩

theorem first_stage_trackers (cfg : Config) (ts : List TenXProgressTracker) :
    (align_first_stage cfg ts).2.1 = ts.map fun t => (align_first_stage_step cfg t).1 := by
  unfold align_first_stage
  dsimp only
  exact sweep_trackers _ 0 ts

theorem first_stage_fin (cfg : Config) (ts : List TenXProgressTracker) :
    (align_first_stage cfg ts).1 = ts.all fun t => (align_first_stage_step cfg t).2.1 := by
  unfold align_first_stage
  dsimp only
  exact sweep_fin _ 0 ts

theorem first_stage_log (cfg : Config) (ts : List TenXProgressTracker) :
    (align_first_stage cfg ts).2.2 =
      (sweep (align_first_stage_step cfg) 0 ts).2.2 ++
        biasSweep 0 (align_first_stage cfg ts).2.1 := by
  unfold align_first_stage
  dsimp only

theorem forall₂_flagLe_trans {a b c : List TenXProgressTracker}
    (h1 : List.Forall₂ flagLe a b) (h2 : List.Forall₂ flagLe b c) :
    List.Forall₂ flagLe a c := by
  induction h1 generalizing c with
  | nil =>
    cases h2
    exact .nil
  | cons hab h ih =>
    cases h2 with
    | cons hbc h2 =>
      exact .cons ⟨fun hp => hab.1 (hbc.1 hp), fun hs => hab.2 (hbc.2 hs)⟩ (ih h2)

theorem forall₂_flagLe_map (ts : List TenXProgressTracker)
    (f : TenXProgressTracker → TenXProgressTracker) (h : ∀ t, flagLe t (f t)) :
    List.Forall₂ flagLe ts (ts.map f) := by
  rw [List.forall₂_map_right_iff]
  exact List.forall₂_same.2 fun t _ => h t

/-- Claim C4 counterexample: a pair whose paired search stops in phase 1 is
moved by stage 1 directly from PairSearching (both flags set) to
SingleFallback (pairNotDone cleared, singleNotDone still set), and over the
whole resolution no paired-scoring engine call is ever made for it while
the single-end fallback engine is invoked for it, so the pair enters
SingleFallback without completing paired scoring in PairScoring. -/
theorem claim_C4_counterexample :
    trackerStop.pairNotDone = true ∧ trackerStop.singleNotDone = true ∧
    ((align_first_stage cfgA [trackerStop]).2.1.map fun t => (t.pairNotDone, t.singleNotDone))
      = [(false, true)] ∧
    ((align cfgA [trackerStop]).2.2.filter isScoringCall) = [] ∧
    ((align cfgA [trackerStop]).2.2.filter isSingleEngineCall) ≠ [] ∧
    (align cfgA [trackerStop]).1 = true := by decide

/-- Claim C4 (amended): transitions of the two per-pair stage flags are
forward-only in every stage and in the top-level align: a flag that is set
after the sweep was set before it, so once a stage flag clears it stays
cleared for the rest of the resolution of the barcode.  (The counterexample
forces the amendment that a pair may enter SingleFallback directly from
PairSearching, without passing through PairScoring, when its paired search
stops during stage 1.) -/
theorem claim_C4_amended_flags_forward (cfg : Config) (ts : List TenXProgressTracker) :
    List.Forall₂ flagLe ts (align_first_stage cfg ts).2.1 ∧
    List.Forall₂ flagLe ts (align_second_stage cfg ts).2.1 ∧
    List.Forall₂ flagLe ts (align_third_stage cfg ts).2.1 ∧
    List.Forall₂ flagLe ts (align cfg ts).2.1 := by
  have h1 : ∀ us, List.Forall₂ flagLe us (align_first_stage cfg us).2.1 := fun us => by
    rw [first_stage_trackers]
    exact forall₂_flagLe_map _ _ (first_step_flagLe cfg)
  have h2 : ∀ us, List.Forall₂ flagLe us (align_second_stage cfg us).2.1 := fun us => by
    unfold align_second_stage
    rw [sweep_trackers]
    exact forall₂_flagLe_map _ _ (second_step_flagLe cfg)
  have h3 : ∀ us, List.Forall₂ flagLe us (align_third_stage cfg us).2.1 := fun us => by
    unfold align_third_stage
    rw [sweep_trackers]
    exact forall₂_flagLe_map _ _ (third_step_flagLe cfg)
  refine ⟨h1 ts, h2 ts, h3 ts, ?_⟩
  unfold align
  dsimp only
  split
  · exact h1 ts
  · split
    · exact forall₂_flagLe_trans (h1 ts) (h2 _)
    · exact forall₂_flagLe_trans (forall₂_flagLe_trans (h1 ts) (h2 _)) (h3 _)

/-- Claim C9 counterexample: for a barcode of one pair whose paired search
stops in phase 1, every pair has left the paired-search state after the
sweep (pairNotDone is cleared for all pairs), yet align_first_stage reports
the barcode not finished, refuting the claimed equivalence. -/
theorem claim_C9_counterexample :
    (align_first_stage cfgA [trackerStop]).1 = false ∧
    ((align_first_stage cfgA [trackerStop]).2.1.map fun t => t.pairNotDone) = [false] := by
  decide

/-- Claim C9 (amended): stage 1 reports the barcode finished iff no pair
required search work during the sweep: every pair either entered the sweep
with its paired stage flag already cleared, or had both mates below the
minimum read length (and was finalized as too short).  A pair that starts
or stops its search during the sweep leaves the barcode reported
unfinished even though it is no longer in PairSearching afterwards. -/
theorem claim_C9_amended (cfg : Config) (ts : List TenXProgressTracker) :
    (align_first_stage cfg ts).1 = true ↔
      ∀ t ∈ ts, t.pairNotDone = false ∨
        (t.dataLength0 < cfg.minReadLength ∧ t.dataLength1 < cfg.minReadLength) := by
  rw [first_stage_fin, List.all_eq_true]
  constructor
  · intro h t ht
    exact (first_step_fin_iff cfg t).1 (h t ht)
  · intro h t ht
    exact (first_step_fin_iff cfg t).2 (h t ht)

/-- Claim C10: after the search sweep of stage 1, an advance-to-target
engine call for pair i with target coordinate tgt is recorded exactly when
pair i is still active after the sweep and tgt is the single barcode-wide
cluster target location, the same coordinate for every pair of the sweep:
every still-active pair, and only those, is advanced toward it. -/
theorem claim_C10_cluster_bias (cfg : Config) (ts : List TenXProgressTracker) (i tgt : Nat) :
    EngineCall.alignPhase2ToTargetLoc i tgt ∈ (align_first_stage cfg ts).2.2 ↔
      (tgt = clusterTargetLoc ∧
        ∃ t, (align_first_stage cfg ts).2.1[i]? = some t ∧ t.pairNotDone = true) := by
  rw [first_stage_log, List.mem_append]
  constructor
  · rintro (h | h)
    · exfalso
      rcases (sweep_log_mem _ _ 0 ts).1 h with ⟨j, u, hj, hc⟩
      exact first_step_calls_no_advance cfg u (0 + j) i tgt hc
    · rcases (biasSweep_mem i tgt 0 _).1 h with ⟨j, u, hj, hij, hu, htgt⟩
      have hi : i = j := by omega
      subst hi
      exact ⟨htgt, u, hj, hu⟩
  · rintro ⟨htgt, u, hu, hpair⟩
    exact Or.inr ((biasSweep_mem i tgt 0 _).2 ⟨i, u, hu, by omega, hpair, htgt⟩)

/-- Claim C5: when more candidate secondary pairs exist than fit in the
paired secondary buffer of an active pair, align_second_stage records the
sentinel count capacity + 1 in the nSecondaryResults of that pair, leaves
its stage flags unchanged (the tracker is changed only in the three
secondary-result counts, so the pair stays in PairScoring), and reports the
barcode not finished. -/
theorem claim_C5_stage2_overflow (cfg : Config) (ts : List TenXProgressTracker)
    (i : Nat) (t : TenXProgressTracker)
    (hm : ts[i]? = some t) (hp : t.pairNotDone = true)
    (hov : t.secondaryResultBufferSize < t.aligner.nCandidateSecondary) :
    (align_second_stage cfg ts).1 = false ∧
    (align_second_stage cfg ts).2.1[i]? = some
      { t with nSingleEndSecondaryResultsForFirstRead := 0,
               nSingleEndSecondaryResultsForSecondRead := 0,
               nSecondaryResults := t.secondaryResultBufferSize + 1 } := by
  constructor
  · unfold align_second_stage
    rw [sweep_fin]
    by_contra hne
    have hall : ∀ u ∈ ts, (align_second_stage_step cfg u).2.1 = true :=
      List.all_eq_true.1 (by revert hne; cases h : (ts.all fun t => (align_second_stage_step cfg t).2.1) <;> simp)
    have hcontr := hall t (List.getElem?_mem hm)
    rw [second_step_overflow cfg t hp hov] at hcontr
    simp at hcontr
  · unfold align_second_stage
    rw [sweep_trackers, List.getElem?_map, hm]
    simp [second_step_overflow cfg t hp hov]

/-- Claim C5 witness: a pair with paired secondary buffer capacity 2 and
five candidate secondary pairs makes the call return unfinished with the
recorded secondary count equal to 3. -/
theorem claim_C5_witness :
    (align_second_stage cfgA [trackerA]).1 = false ∧
    (align_second_stage cfgA [trackerA]).2.1[0]? = some
      { trackerA with nSingleEndSecondaryResultsForFirstRead := 0,
                      nSingleEndSecondaryResultsForSecondRead := 0,
                      nSecondaryResults := 3 } := by
  have h := claim_C5_stage2_overflow cfgA [trackerA] 0 trackerA rfl rfl (by decide)
  exact ⟨h.1, by rw [h.2]; rfl⟩

/-- Claim C6: the top-level align runs stage 1 and returns finished with
the stage-1 state when stage 1 reports the barcode resolved; otherwise it
runs stage 2 on the stage-1 state and, when stage 2 reports unfinished,
returns unfinished with the stage-2 state, without invoking stage 3 in
that call; otherwise it runs stage 3 and returns its completion flag and
state. -/
theorem claim_C6_entry_sequencing (cfg : Config) (ts : List TenXProgressTracker) :
    ((align_first_stage cfg ts).1 = true →
        align cfg ts =
          (true, (align_first_stage cfg ts).2.1, (align_first_stage cfg ts).2.2)) ∧
    ((align_first_stage cfg ts).1 = false →
      (align_second_stage cfg (align_first_stage cfg ts).2.1).1 = false →
        align cfg ts =
          (false, (align_second_stage cfg (align_first_stage cfg ts).2.1).2.1,
            (align_first_stage cfg ts).2.2 ++
              (align_second_stage cfg (align_first_stage cfg ts).2.1).2.2)) ∧
    ((align_first_stage cfg ts).1 = false →
      (align_second_stage cfg (align_first_stage cfg ts).2.1).1 = true →
        align cfg ts =
          ((align_third_stage cfg
              (align_second_stage cfg (align_first_stage cfg ts).2.1).2.1).1,
           (align_third_stage cfg
              (align_second_stage cfg (align_first_stage cfg ts).2.1).2.1).2.1,
           (align_first_stage cfg ts).2.2 ++
             (align_second_stage cfg (align_first_stage cfg ts).2.1).2.2 ++
             (align_third_stage cfg
               (align_second_stage cfg (align_first_stage cfg ts).2.1).2.1).2.2)) := by
  refine ⟨fun h1 => ?_, fun h1 h2 => ?_, fun h1 h2 => ?_⟩
  · unfold align
    dsimp only
    simp [h1]
  · unfold align
    dsimp only
    simp [h1, h2]
  · unfold align
    dsimp only
    simp [h1, h2]

/-- Claim C6 witness: the fast path at a barcode of one too-short pair, and
the early unfinished return at a barcode of one pair whose paired secondary
buffer overflows in stage 2. -/
theorem claim_C6_witness :
    align cfgA [trackerShort] =
      (true, (align_first_stage cfgA [trackerShort]).2.1,
        (align_first_stage cfgA [trackerShort]).2.2) ∧
    align cfgA [trackerA] =
      (false, (align_second_stage cfgA (align_first_stage cfgA [trackerA]).2.1).2.1,
        (align_first_stage cfgA [trackerA]).2.2 ++
          (align_second_stage cfgA (align_first_stage cfgA [trackerA]).2.1).2.2) :=
  ⟨(claim_C6_entry_sequencing cfgA [trackerShort]).1 (by decide),
   (claim_C6_entry_sequencing cfgA [trackerA]).2.1 (by decide) (by decide)⟩

theorem sweep_no_call_at
    (step : TenXProgressTracker → TenXProgressTracker × Bool × (Nat → List EngineCall))
    (ts : List TenXProgressTracker) (i : Nat) (t : TenXProgressTracker)
    (hidx : ∀ u j c, c ∈ (step u).2.2 j → callPairIdx c = j)
    (hm : ts[i]? = some t) (hskip : ∀ j, (step t).2.2 j = [])
    (c : EngineCall) (hc : c ∈ (sweep step 0 ts).2.2) : callPairIdx c ≠ i := by
  intro hci
  rcases (sweep_log_mem step c 0 ts).1 hc with ⟨j, u, hj, hcall⟩
  have hcj := hidx u (0 + j) c hcall
  have hji : j = i := by omega
  subst hji
  rw [hm] at hj
  injection hj with hj
  subst hj
  rw [hskip] at hcall
  simp at hcall

theorem biasSweep_elim (c : EngineCall) :
    ∀ (i0 : Nat) (ts : List TenXProgressTracker), c ∈ biasSweep i0 ts →
      ∃ j t, ts[j]? = some t ∧ t.pairNotDone = true ∧
        c = EngineCall.alignPhase2ToTargetLoc (i0 + j) clusterTargetLoc := by
  intro i0 ts
  induction ts generalizing i0 with
  | nil => simp [biasSweep]
  | cons t ts ih =>
    intro h
    rcases List.mem_append.1 h with h | h
    · split at h
      next hpair =>
        simp only [List.mem_singleton] at h
        exact ⟨0, t, by simp, hpair, by simpa using h⟩
      next => simp at h
    · rcases ih (i0 + 1) h with ⟨j, u, hj, hu, hc⟩
      refine ⟨j + 1, u, by simpa using hj, hu, ?_⟩
      rw [hc]
      have e : (i0 + 1) + j = i0 + (j + 1) := by omega
      rw [e]

/-- Claim C7: a pair whose two mates are both shorter than the minimum read
length is finalized by the first invocation with the too-short result (both
mates NotFound, zero location, mapq and score, alignedAsPair false) and
both stage flags cleared (Resolved); no engine call of any kind is made
for it; and a barcode consisting only of such unstarted pairs is reported
finished by that first call. -/
theorem claim_C7_short_pair (cfg : Config) (ts : List TenXProgressTracker)
    (i : Nat) (t : TenXProgressTracker)
    (hm : ts[i]? = some t) (hp : t.pairNotDone = true)
    (h0 : t.dataLength0 < cfg.minReadLength) (h1 : t.dataLength1 < cfg.minReadLength) :
    (align cfg ts).2.1[i]? = some
      { t with result0 := shortFinalize t.result0,
               pairNotDone := false, singleNotDone := false } ∧
    (∀ c ∈ (align cfg ts).2.2, callPairIdx c ≠ i) ∧
    ((∀ u ∈ ts, u.pairNotDone = true ∧
        u.dataLength0 < cfg.minReadLength ∧ u.dataLength1 < cfg.minReadLength) →
      (align cfg ts).1 = true) := by
  have hstep1 := first_step_short cfg t hp h0 h1
  have hd1 : (align_first_stage cfg ts).2.1[i]? = some
      { t with result0 := shortFinalize t.result0,
               pairNotDone := false, singleNotDone := false } := by
    rw [first_stage_trackers, List.getElem?_map, hm]
    simp [hstep1]
  have hstep2 := second_step_skip cfg
    { t with result0 := shortFinalize t.result0,
             pairNotDone := false, singleNotDone := false } rfl
  have hstep3 := third_step_skip cfg
    { t with result0 := shortFinalize t.result0,
             pairNotDone := false, singleNotDone := false } rfl
  have h2out : ∀ us, us[i]? = some
      { t with result0 := shortFinalize t.result0,
               pairNotDone := false, singleNotDone := false } →
      (align_second_stage cfg us).2.1[i]? = some
        { t with result0 := shortFinalize t.result0,
                 pairNotDone := false, singleNotDone := false } := by
    intro us hus
    unfold align_second_stage
    rw [sweep_trackers, List.getElem?_map, hus]
    simp [hstep2]
  have h3out : ∀ us, us[i]? = some
      { t with result0 := shortFinalize t.result0,
               pairNotDone := false, singleNotDone := false } →
      (align_third_stage cfg us).2.1[i]? = some
        { t with result0 := shortFinalize t.result0,
                 pairNotDone := false, singleNotDone := false } := by
    intro us hus
    unfold align_third_stage
    rw [sweep_trackers, List.getElem?_map, hus]
    simp [hstep3]
  have hlog1 : ∀ c ∈ (align_first_stage cfg ts).2.2, callPairIdx c ≠ i := by
    intro c hc
    rw [first_stage_log, List.mem_append] at hc
    rcases hc with hc | hc
    · exact sweep_no_call_at _ ts i t (first_step_calls_idx cfg) hm
        (fun j => by rw [hstep1]) c hc
    · rcases biasSweep_elim c 0 _ hc with ⟨j, u, hj, hu, hcadv⟩
      intro hci
      rw [hcadv] at hci
      simp only [callPairIdx] at hci
      have hji : j = i := by omega
      subst hji
      rw [hd1] at hj
      injection hj with hj
      rw [← hj] at hu
      simp at hu
  have hlog2 : ∀ us, us[i]? = some
      { t with result0 := shortFinalize t.result0,
               pairNotDone := false, singleNotDone := false } →
      ∀ c ∈ (align_second_stage cfg us).2.2, callPairIdx c ≠ i := by
    intro us hus c hc
    exact sweep_no_call_at _ us i _ (second_step_calls_idx cfg) hus
      (fun j => by rw [hstep2]) c hc
  have hlog3 : ∀ us, us[i]? = some
      { t with result0 := shortFinalize t.result0,
               pairNotDone := false, singleNotDone := false } →
      ∀ c ∈ (align_third_stage cfg us).2.2, callPairIdx c ≠ i := by
    intro us hus c hc
    exact sweep_no_call_at _ us i _ (third_step_calls_idx cfg) hus
      (fun j => by rw [hstep3]) c hc
  refine ⟨?_, ?_, ?_⟩
  · unfold align
    dsimp only
    split
    · exact hd1
    · split
      · exact h2out _ hd1
      · exact h3out _ (h2out _ hd1)
  · intro c hc
    unfold align at hc
    dsimp only at hc
    split at hc
    · exact hlog1 c hc
    · split at hc
      · rcases List.mem_append.1 hc with hc | hc
        · exact hlog1 c hc
        · exact hlog2 _ hd1 c hc
      · rcases List.mem_append.1 hc with hc | hc
        · rcases List.mem_append.1 hc with hc | hc
          · exact hlog1 c hc
          · exact hlog2 _ hd1 c hc
        · exact hlog3 _ (h2out _ hd1) c hc
  · intro hall
    have hfin : (align_first_stage cfg ts).1 = true := by
      rw [first_stage_fin, List.all_eq_true]
      intro u hu
      rcases hall u hu with ⟨hup, hu0, hu1⟩
      rw [first_step_short cfg u hup hu0 hu1]
    unfold align
    dsimp only
    simp [hfin]

/-- Claim C7 witness: a barcode of one pair with both mates of length 0 and
minimum read length 30 is finished by the first call, with the pair
finalized as too short. -/
theorem claim_C7_witness :
    (align cfgA [trackerShort]).2.1[0]? = some
      { trackerShort with result0 := shortFinalize trackerShort.result0,
                          pairNotDone := false, singleNotDone := false } ∧
    (align cfgA [trackerShort]).1 = true :=
  ⟨(claim_C7_short_pair cfgA [trackerShort] 0 trackerShort rfl rfl
      (by decide) (by decide)).1,
   (claim_C7_short_pair cfgA [trackerShort] 0 trackerShort rfl rfl
      (by decide) (by decide)).2.2 (by decide)⟩

/-- Claim C8 counterexample: with forced mate-spacing configured, a pair
whose paired search stops in phase 1 still enters SingleFallback
(pairNotDone cleared, singleNotDone still set after stage 1) and the
single-end fallback engine is invoked for it by the same align call. -/
theorem claim_C8_counterexample :
    cfgFS.forceSpacing = true ∧
    ((align_first_stage cfgFS [trackerStop]).2.1.map fun t => (t.pairNotDone, t.singleNotDone))
      = [(false, true)] ∧
    ((align cfgFS [trackerStop]).2.2.filter isSingleEngineCall) ≠ [] := by decide

/-- Claim C8 (amended): with forced mate-spacing configured, every pair
that stage 2 processes to completion (no paired secondary-buffer overflow)
is finalized strictly as-is and transitions to Resolved: both stage flags
are cleared, alignedAsPair stays true, and fromAlignTogether is cleared
exactly when the primary mate 0 is NotFound (the explicit unpaired
failure), so stage 2 itself never defers a pair to SingleFallback.  (The
counterexample forces the amendment that a pair whose paired search stops
during stage 1 still reaches SingleFallback, where the single-end engine
is invoked for it even under this mode.) -/
theorem claim_C8_amended (cfg : Config) (t : TenXProgressTracker)
    (hfs : cfg.forceSpacing = true) (hp : t.pairNotDone = true)
    (hov : ¬ t.secondaryResultBufferSize < t.aligner.nCandidateSecondary) :
    (align_second_stage_step cfg t).1.pairNotDone = false ∧
    (align_second_stage_step cfg t).1.singleNotDone = false ∧
    (align_second_stage_step cfg t).1.result0.alignedAsPair = true ∧
    ((align_second_stage_step cfg t).1.result0.fromAlignTogether = true ↔
      t.aligner.phase4Result.status0 ≠ AlignmentRes.NotFound) := by
  unfold align_second_stage_step
  dsimp only
  by_cases hs : t.aligner.phase4Result.status0 = AlignmentRes.NotFound
  · simp [hp, hov, hfs, hs]
  · simp [hp, hov, hfs, hs]

/-- Claim C8 amended witness: a forced-spacing pair that completes stage 2
without overflow ends Resolved with alignedAsPair true. -/
theorem claim_C8_amended_witness :
    (align_second_stage_step cfgFS
      { trackerA with secondaryResultBufferSize := 6 }).1.pairNotDone = false ∧
    (align_second_stage_step cfgFS
      { trackerA with secondaryResultBufferSize := 6 }).1.singleNotDone = false ∧
    (align_second_stage_step cfgFS
      { trackerA with secondaryResultBufferSize := 6 }).1.result0.alignedAsPair = true ∧
    ((align_second_stage_step cfgFS
        { trackerA with secondaryResultBufferSize := 6 }).1.result0.fromAlignTogether = true ↔
      ({ trackerA with
          secondaryResultBufferSize := (6 : Int) }).aligner.phase4Result.status0 ≠
        AlignmentRes.NotFound) :=
  claim_C8_amended cfgFS { trackerA with secondaryResultBufferSize := 6 }
    rfl rfl (by decide)

/-- Claim C1 failing run: for a one-pair barcode whose stage-2 paired
secondary buffer overflows (capacity 2, five candidate secondary pairs),
the first align call returns unfinished; the caller enlarges only the
paired secondary buffer and re-invokes; the retry finishes the barcode;
and across this whole resolution of the barcode align_phase_1 is invoked
twice for the pair (once per call), refuting the claim that the stage-1
paired seed search is performed at most once per pair and not repeated
after a stage-2 overflow. -/
theorem claim_C1_phase1_repeated :
    (align cfgA [trackerA]).1 = false ∧
    countPhase1 (align cfgA [trackerA]).2.2 0 = 1 ∧
    (align cfgA retryStateA).1 = true ∧
    countPhase1 (align cfgA retryStateA).2.2 0 = 1 ∧
    countPhase1 ((align cfgA [trackerA]).2.2 ++ (align cfgA retryStateA).2.2) 0 = 2 := by
  decide

/-- Claim C2 counterexample: a stage-3 single-end secondary-buffer overflow
(single-end capacity 2, five single-end candidates for mate 0) makes the
stage report the barcode not finished and zeroes the stage-2 paired
secondary-result count nSecondaryResults of the pair (4 before the call, 0
after), rather than leaving it intact for the retry. -/
theorem claim_C2_counterexample :
    trackerC.nSecondaryResults = 4 ∧
    (align_third_stage cfgA [trackerC]).1 = false ∧
    ((align_third_stage cfgA [trackerC]).2.1.map fun t => t.nSecondaryResults) = [0] := by
  decide

theorem second_step_fin_iff (cfg : Config) (t : TenXProgressTracker) :
    (align_second_stage_step cfg t).2.1 = false ↔
      (t.pairNotDone = true ∧
        t.secondaryResultBufferSize < t.aligner.nCandidateSecondary) := by
  unfold align_second_stage_step
  dsimp only
  split
  · split
    · simp_all
    · split
      · simp_all
      · split <;> simp_all
  · simp_all

theorem third_mate_cases (cfg : Config) (u : TenXProgressTracker) (r : Nat) :
    ((align_third_stage_mate cfg u r).2.1 = true ∧
      (align_third_stage_mate cfg u r).1 =
        { u with nSecondaryResults := 0,
                 nSingleEndSecondaryResultsForFirstRead := u.singleSecondaryBufferSize + 1,
                 nSingleEndSecondaryResultsForSecondRead := 0 }) ∨
    (align_third_stage_mate cfg u r).2.1 = false := by
  unfold align_third_stage_mate
  dsimp only
  split
  · right
    rfl
  · split
    · left
      exact ⟨rfl, rfl⟩
    · right
      rfl

theorem third_mate_frame (cfg : Config) (u : TenXProgressTracker) (r : Nat) :
    overflowFrame u (align_third_stage_mate cfg u r).1 := by
  unfold align_third_stage_mate overflowFrame
  dsimp only
  split
  · simp
  · split <;> simp

/-- Claim C2 (amended): an overflow report preserves all per-pair tracker
fields other than the three secondary-result counts and the primary result
slot: a stage-2 paired overflow leaves everything but the three counts
unchanged (the primary result slot included) and records the paired
sentinel capacity + 1; a stage-3 single-end overflow likewise preserves
the stage flags, the cursor, the read lengths, the buffer sizes and the
engine binding, and records the single-end sentinel, but it zeroes the
stage-2 paired secondary-result count nSecondaryResults rather than
leaving it intact (and per-mate primary-result fields already processed
earlier in the same sweep may have been updated). -/
theorem claim_C2_amended (cfg : Config) (t : TenXProgressTracker) :
    (t.pairNotDone = true →
      (align_second_stage_step cfg t).2.1 = false →
        overflowFrame t (align_second_stage_step cfg t).1 ∧
        (align_second_stage_step cfg t).1.result0 = t.result0 ∧
        (align_second_stage_step cfg t).1.nSecondaryResults =
          t.secondaryResultBufferSize + 1 ∧
        (align_second_stage_step cfg t).1.nSingleEndSecondaryResultsForFirstRead = 0 ∧
        (align_second_stage_step cfg t).1.nSingleEndSecondaryResultsForSecondRead = 0) ∧
    (t.singleNotDone = true →
      (align_third_stage_step cfg t).2.1 = false →
        overflowFrame t (align_third_stage_step cfg t).1 ∧
        (align_third_stage_step cfg t).1.nSecondaryResults = 0 ∧
        (align_third_stage_step cfg t).1.nSingleEndSecondaryResultsForFirstRead =
          t.singleSecondaryBufferSize + 1 ∧
        (align_third_stage_step cfg t).1.nSingleEndSecondaryResultsForSecondRead = 0) := by
  constructor
  · intro hp h2
    have hov := ((second_step_fin_iff cfg t).1 h2).2
    rw [second_step_overflow cfg t hp hov]
    refine ⟨?_, rfl, rfl, rfl, rfl⟩
    unfold overflowFrame
    simp
  · intro hs h3
    rcases third_mate_cases cfg t 0 with ⟨hov0, hout0⟩ | hno0
    · have hstep : align_third_stage_step cfg t =
          ((align_third_stage_mate cfg t 0).1, false, (align_third_stage_mate cfg t 0).2.2) := by
        unfold align_third_stage_step
        dsimp only
        simp [hs, hov0]
      rw [hstep, hout0]
      refine ⟨?_, rfl, rfl, rfl⟩
      unfold overflowFrame
      simp
    · rcases third_mate_cases cfg (align_third_stage_mate cfg t 0).1 1 with ⟨hov1, hout1⟩ | hno1
      · have hstep : align_third_stage_step cfg t =
            ((align_third_stage_mate cfg (align_third_stage_mate cfg t 0).1 1).1, false,
              fun i => (align_third_stage_mate cfg t 0).2.2 i ++
                (align_third_stage_mate cfg (align_third_stage_mate cfg t 0).1 1).2.2 i) := by
          unfold align_third_stage_step
          dsimp only
          simp [hs, hno0, hov1]
        obtain ⟨f1, f2, f3, f4, f5, f6, f7, f8, f9, f10⟩ := third_mate_frame cfg t 0
        rw [hstep, hout1]
        refine ⟨⟨f1, f2, f3, f4, f5, f6, f7, f8, f9, f10⟩, rfl, ?_, rfl⟩
        show (align_third_stage_mate cfg t 0).1.singleSecondaryBufferSize + 1 =
          t.singleSecondaryBufferSize + 1
        rw [f9]
      · exfalso
        have htrue : (align_third_stage_step cfg t).2.1 = true := by
          unfold align_third_stage_step
          dsimp only
          simp [hs, hno0, hno1]
        rw [htrue] at h3
        cases h3

/-- Claim C2 amended witness: a stage-2 overflow (capacity 2, five
candidates) and a stage-3 overflow (single-end capacity 2, five single-end
candidates) each preserve the frame fields and record their sentinels; the
stage-3 overflow zeroes nSecondaryResults. -/
theorem claim_C2_amended_witness :
    (overflowFrame trackerA (align_second_stage_step cfgA trackerA).1 ∧
      (align_second_stage_step cfgA trackerA).1.result0 = trackerA.result0 ∧
      (align_second_stage_step cfgA trackerA).1.nSecondaryResults =
        trackerA.secondaryResultBufferSize + 1 ∧
      (align_second_stage_step cfgA trackerA).1.nSingleEndSecondaryResultsForFirstRead = 0 ∧
      (align_second_stage_step cfgA trackerA).1.nSingleEndSecondaryResultsForSecondRead = 0) ∧
    (overflowFrame trackerC (align_third_stage_step cfgA trackerC).1 ∧
      (align_third_stage_step cfgA trackerC).1.nSecondaryResults = 0 ∧
      (align_third_stage_step cfgA trackerC).1.nSingleEndSecondaryResultsForFirstRead =
        trackerC.singleSecondaryBufferSize + 1 ∧
      (align_third_stage_step cfgA trackerC).1.nSingleEndSecondaryResultsForSecondRead = 0) :=
  ⟨(claim_C2_amended cfgA trackerA).1 rfl (by decide),
   (claim_C2_amended cfgA trackerC).2 rfl (by decide)⟩

/-- Claim C3 failing run: a pair whose single-end fallback completes
without overflow (one single-end secondary result for mate 0, two for
mate 1, capacity 10) ends with nSingleEndSecondaryResultsForFirstRead
holding mate 1's count (2, the last write through the aliased count
pointers of source line 267) and nSingleEndSecondaryResultsForSecondRead
still 0, and mate 1's results are written into the shared single-end
buffer at offset 1 with the remaining capacity 9 — not into an independent
per-mate buffer with an independent per-mate counter as the claim states
(the counts would then be 1 and 2). -/
theorem claim_C3_aliased_counters :
    (align_third_stage cfgA [trackerB]).1 = true ∧
    ((align_third_stage cfgA [trackerB]).2.1.map fun t =>
      (t.nSingleEndSecondaryResultsForFirstRead, t.nSingleEndSecondaryResultsForSecondRead))
      = [(2, 0)] ∧
    (align_third_stage cfgA [trackerB]).2.2 =
      [EngineCall.alignRead 0 0 10 0, EngineCall.alignRead 0 1 9 1] := by
  decide

end TenX
